import Mathlib

/-!
Verification of the F-CAD2 language front end (parser and primitive numeric
runtime) against its specification.

The development shallowly embeds the two source files of the repository:

* `src/AST/numerical.py` — the primitive `int`/`float` classes, the
  `numerical_compatible` operator adapter and the `numerical_methods` table;
* `src/parser.py` — the recursive-descent `Parser` class, embedded as a
  family of fueled functions over an explicit token list, returning
  `Except` values that mirror the Python exceptions the code can raise
  (`SyntaxError` from `Parser.error`, and the `AttributeError`/`TypeError`
  family where the source refers to names or attributes that do not exist).

Python `float` values are modelled as rationals: every numeric claim under
verification only depends on exact small values and on the *type* of the
native result (int vs float vs bool), which the rational model reflects
faithfully.  Left out of the model is only the case of `x ** y` with a
non-integral exponent, whose result (an irrational float, or a complex
number for negative bases) is not a rational; it is mapped to the marker
error `nonRationalResult`, which no claim depends on.

The tokenizer (`tokenizer.py`), the AST runtime (`AST/base.py`,
`AST/logic.py`, …) are imported by the sources but are not part of the
repository; where a claim needs them they are modelled from the
specification, and each such definition is marked `Modelled from the spec`.
-/

namespace FCAD

/-- Kinds of Python exception outcomes that the embedded code can produce.
`fuelExhausted` is an artifact of the fueled embedding only; theorems use
fuel large enough that it never occurs on their inputs. -/
inductive PyErr where
  | syntaxError
  | attributeError (name : String)
  | assertionError
  | typeError
  | valueError
  | keyError
  | zeroDivisionError
  | nonRationalResult
  | methodNotFoundError
  | unboundLocalError
  | fuelExhausted
deriving DecidableEq

/-- A native Python value as stored in the `value` attribute of the runtime
wrappers: an `int`, a `float` (modelled as a rational), a `bool`, or a
`str` (the value of a `String` wrapper). -/
inductive PyVal where
  | int (n : ℤ)
  | float (q : ℚ)
  | bool (b : Bool)
  | str (s : String)
deriving DecidableEq

/-- Whether a native value is an `int`, `float` or `bool` (the operand
types the numeric operations accept). -/
def PyVal.isNumeric : PyVal → Bool
  | .int _ => true
  | .float _ => true
  | .bool _ => true
  | .str _ => false

/-- Whether a native value behaves as a Python `int` in arithmetic
(`bool` is an `int` subtype: `True + True == 2`). -/
def PyVal.intLike : PyVal → Bool
  | .int _ => true
  | .bool _ => true
  | _ => false

/-- The numeric value of a native operand, as a rational. -/
def PyVal.asRat : PyVal → ℚ
  | .int n => (n : ℚ)
  | .float q => q
  | .bool b => if b then 1 else 0
  | .str _ => 0

/-- The integer value of an int-like native operand. -/
def PyVal.asInt : PyVal → ℤ
  | .int n => n
  | .bool b => if b then 1 else 0
  | _ => 0

/-- Native `x + y`: int on two int-likes, float when a float is involved,
string concatenation on two strings, `TypeError` on a string mixed with a
number. -/
def nativeAdd (x y : PyVal) : Except PyErr PyVal :=
  if x.isNumeric && y.isNumeric then
    if x.intLike && y.intLike then pure (.int (x.asInt + y.asInt))
    else pure (.float (x.asRat + y.asRat))
  else
    match x, y with
    | .str s, .str t => pure (.str (s ++ t))
    | _, _ => throw .typeError

/-- Native `x - y`. -/
def nativeSubstract (x y : PyVal) : Except PyErr PyVal :=
  if x.isNumeric && y.isNumeric then
    if x.intLike && y.intLike then pure (.int (x.asInt - y.asInt))
    else pure (.float (x.asRat - y.asRat))
  else throw .typeError

/-- Native `x * y`: numeric product, or string repetition when one operand
is a string and the other int-like. -/
def nativeMultiply (x y : PyVal) : Except PyErr PyVal :=
  if x.isNumeric && y.isNumeric then
    if x.intLike && y.intLike then pure (.int (x.asInt * y.asInt))
    else pure (.float (x.asRat * y.asRat))
  else
    match x, y with
    | .str s, y2 =>
      if y2.intLike then pure (.str (String.join (List.replicate y2.asInt.toNat s)))
      else throw .typeError
    | x2, .str s =>
      if x2.intLike then pure (.str (String.join (List.replicate x2.asInt.toNat s)))
      else throw .typeError
    | _, _ => throw .typeError

/-- Native `x / y`: true division, whose result is always a float;
`ZeroDivisionError` on a zero divisor. -/
def nativeDivide (x y : PyVal) : Except PyErr PyVal :=
  if x.isNumeric && y.isNumeric then
    if y.asRat = 0 then throw .zeroDivisionError
    else pure (.float (x.asRat / y.asRat))
  else throw .typeError

/-- Native `x % y`: Python's floored modulo (`x - y * floor (x / y)`,
result sign follows the divisor), int-typed on two int-likes. -/
def nativeModulo (x y : PyVal) : Except PyErr PyVal :=
  if x.isNumeric && y.isNumeric then
    if y.asRat = 0 then throw .zeroDivisionError
    else if x.intLike && y.intLike then pure (.int (Int.fmod x.asInt y.asInt))
    else pure (.float (x.asRat - y.asRat * (⌊x.asRat / y.asRat⌋ : ℤ)))
  else throw .typeError

/-- Native `x ** y`.  An integral exponent gives an exact rational power,
int-typed when both operands are int-like and the exponent is
non-negative (`2 ** 3 == 8` but `2 ** -1 == 0.5`); `0 ** negative` raises
`ZeroDivisionError`.  A non-integral exponent is outside the rational
model (Python produces an irrational float, or a complex number for a
negative base) and maps to `nonRationalResult`. -/
def nativeExponent (x y : PyVal) : Except PyErr PyVal :=
  if x.isNumeric && y.isNumeric then
    if y.asRat.den = 1 then
      if x.asRat = 0 && decide (y.asRat.num < 0) then throw .zeroDivisionError
      else if x.intLike && y.intLike && decide (0 ≤ y.asRat.num) then
        pure (.int (x.asInt ^ y.asRat.num.toNat))
      else pure (.float (x.asRat ^ y.asRat.num))
    else throw .nonRationalResult
  else throw .typeError

/-- Native `x == y`: numeric comparison across int/float/bool
(`True == 1`), string equality on two strings, `False` on mixed
string/number operands (Python `==` never raises). -/
def nativeEqual (x y : PyVal) : Except PyErr PyVal :=
  if x.isNumeric && y.isNumeric then pure (.bool (decide (x.asRat = y.asRat)))
  else
    match x, y with
    | .str s, .str t => pure (.bool (decide (s = t)))
    | _, _ => pure (.bool false)

/-- Native `x != y`. -/
def nativeNotEqual (x y : PyVal) : Except PyErr PyVal :=
  if x.isNumeric && y.isNumeric then pure (.bool (decide (x.asRat ≠ y.asRat)))
  else
    match x, y with
    | .str s, .str t => pure (.bool (decide (s ≠ t)))
    | _, _ => pure (.bool true)

/-- Native `x < y`: numeric order, lexicographic on two strings,
`TypeError` on mixed string/number operands. -/
def nativeLesser (x y : PyVal) : Except PyErr PyVal :=
  if x.isNumeric && y.isNumeric then pure (.bool (decide (x.asRat < y.asRat)))
  else
    match x, y with
    | .str s, .str t => pure (.bool (decide (s < t)))
    | _, _ => throw .typeError

/-- Native `x <= y`. -/
def nativeLesserEqual (x y : PyVal) : Except PyErr PyVal :=
  if x.isNumeric && y.isNumeric then pure (.bool (decide (x.asRat ≤ y.asRat)))
  else
    match x, y with
    | .str s, .str t => pure (.bool (decide (s ≤ t)))
    | _, _ => throw .typeError

/-- Native `x > y`. -/
def nativeGreater (x y : PyVal) : Except PyErr PyVal :=
  if x.isNumeric && y.isNumeric then pure (.bool (decide (y.asRat < x.asRat)))
  else
    match x, y with
    | .str s, .str t => pure (.bool (decide (t < s)))
    | _, _ => throw .typeError

/-- Native `x >= y`. -/
def nativeGreaterEqual (x y : PyVal) : Except PyErr PyVal :=
  if x.isNumeric && y.isNumeric then pure (.bool (decide (y.asRat ≤ x.asRat)))
  else
    match x, y with
    | .str s, .str t => pure (.bool (decide (t ≤ s)))
    | _, _ => throw .typeError

/-- Alias for Lean's booleans, so the name stays usable as a field type
inside inductives that declare a constructor called `Bool`. -/
abbrev NativeBool := Bool

/-- Alias for Lean's strings, for the same reason as `NativeBool`. -/
abbrev NativeStr := String

/-- A runtime value of the language: the primitive wrappers `Int`, `Float`
and `Bool` (`src/AST/numerical.py`, `AST/logic.py`), the `String` wrapper
(`AST/text.py`), and `NoneV` standing for the Python `None` object (the
result a primitive adapter returns when its native result is none of
int/float/bool). -/
inductive Value where
  | Int (value : ℤ)
  | Float (value : ℚ)
  | Bool (value : NativeBool)
  | String (value : NativeStr)
  | NoneV
deriving DecidableEq

/-- The `type(other) in [Int, Float, Bool]` test of `numerical_compatible`. -/
def Value.isNumericCompatible : Value → NativeBool
  | .Int _ => true
  | .Float _ => true
  | .Bool _ => true
  | _ => false

/-- Reading the `value` attribute of a wrapper; the Python `None` object
has no such attribute, so reading it raises `AttributeError`. -/
def valueOf : Value → Except PyErr PyVal
  | .Int n => pure (.int n)
  | .Float q => pure (.float q)
  | .Bool b => pure (.bool b)
  | .String s => pure (.str s)
  | .NoneV => throw (.attributeError "value")

/-- The boxing switch at the end of `numerical_compatible_fn`
(src/AST/numerical.py lines 29-34): an `int` result is boxed as `Int`, a
`float` as `Float`, a `bool` as `Bool`; any other result falls through
every branch and the function returns Python `None`. -/
def rebox : PyVal → Value
  | .int n => .Int n
  | .float q => .Float q
  | .bool b => .Bool b
  | .str _ => .NoneV

/-- `numerical_compatible` (src/AST/numerical.py lines 24-35): wraps a
native binary operation into an adapter on wrapped values.  It asserts
that `other` (only) is of type `Int`, `Float` or `Bool`, computes
`fn(this.value, other.value)` and reboxes the result by its native type. -/
def numerical_compatible (fn : PyVal → PyVal → Except PyErr PyVal)
    (this other : Value) : Except PyErr Value :=
  if other.isNumericCompatible then do
    let x ← valueOf this
    let y ← valueOf other
    let r ← fn x y
    pure (rebox r)
  else throw .assertionError

/-- Python `bool(v)` of a native value: nonzero for numbers, nonempty for
strings. -/
def pyBool : PyVal → Bool
  | .int n => decide (n ≠ 0)
  | .float q => decide (q ≠ 0)
  | .bool b => b
  | .str s => decide (s ≠ "")

/-- `numerical_to_bool` (src/AST/numerical.py lines 38-39):
`Bool(bool(this.value))`. -/
def numerical_to_bool (this : Value) : Except PyErr Value := do
  let x ← valueOf this
  pure (.Bool (pyBool x))

/-- `numerical_methods` (src/AST/numerical.py lines 42-64): the table of
native operations keyed by symbolic method name.  The `_right` variants
are the same native operation with the two arguments swapped
(`lambda x, y: y - x` and so on). -/
def numerical_methods : List (String × (PyVal → PyVal → Except PyErr PyVal)) :=
  [("#add",                 fun x y => nativeAdd x y),
   ("#substract_left",      fun x y => nativeSubstract x y),
   ("#multiply",            fun x y => nativeMultiply x y),
   ("#divide_left",         fun x y => nativeDivide x y),
   ("#modulo_left",         fun x y => nativeModulo x y),
   ("#exponent_left",       fun x y => nativeExponent x y),
   ("#equal",               fun x y => nativeEqual x y),
   ("#not_equal",           fun x y => nativeNotEqual x y),
   ("#lesser_left",         fun x y => nativeLesser x y),
   ("#lesser_equal_left",   fun x y => nativeLesserEqual x y),
   ("#greater_left",        fun x y => nativeGreater x y),
   ("#greater_equal_left",  fun x y => nativeGreaterEqual x y),
   ("#substract_right",     fun x y => nativeSubstract y x),
   ("#divide_right",        fun x y => nativeDivide y x),
   ("#modulo_right",        fun x y => nativeModulo y x),
   ("#exponent_right",      fun x y => nativeExponent y x),
   ("#lesser_right",        fun x y => nativeLesser y x),
   ("#lesser_equal_right",  fun x y => nativeLesserEqual y x),
   ("#greater_right",       fun x y => nativeGreater y x),
   ("#greater_equal_right", fun x y => nativeGreaterEqual y x)]

/-- A method of a primitive class: the binary operator adapters, plus the
unary `#to_bool`. -/
inductive PrimMethod where
  | binary (f : Value → Value → Except PyErr Value)
  | unary (f : Value → Except PyErr Value)

/-- The method table shared by the `int` and `float` classes
(src/AST/numerical.py lines 66-74): every entry of `numerical_methods`
wrapped by `numerical_compatible`, plus `#to_bool`. -/
def numerical_class_table (name : String) : Option PrimMethod :=
  if name = "#to_bool" then some (.unary numerical_to_bool)
  else (numerical_methods.lookup name).map fun fn => .binary (numerical_compatible fn)

/-- `int_class` (src/AST/numerical.py lines 66-69). -/
def int_class : String → Option PrimMethod := numerical_class_table

/-- `float_class` (src/AST/numerical.py lines 71-74). -/
def float_class : String → Option PrimMethod := numerical_class_table

/-- Invoking a binary method of a class table on a receiver and one
argument. -/
def callBinary (cls : String → Option PrimMethod) (name : String)
    (this other : Value) : Except PyErr Value :=
  match cls name with
  | some (.binary f) => f this other
  | some (.unary _) => throw .typeError
  | Option.none => throw .methodNotFoundError

/-- Invoking a unary method of a class table on a receiver. -/
def callUnary (cls : String → Option PrimMethod) (name : String)
    (this : Value) : Except PyErr Value :=
  match cls name with
  | some (.unary f) => f this
  | some (.binary _) => throw .typeError
  | Option.none => throw .methodNotFoundError

/-!
## The token stream

Modelled from the spec: `tokenizer.py` is not part of the repository.  The
spec describes each token as carrying "a kind discriminator (name, number,
string, operator, keyword, group-delimiter, comma, colon, question,
ellipsis, arrow, assignment, semicolon, end-of-stream)" and a raw value;
`parser.py` additionally uses the kinds `DOT` and `SEPARATOR`.  The kinds
form an enumerated type (a Python `Enum`), so a kind compares unequal to
any string — this matters at the one call site that passes the string
`"KEYWORD"` where a `TokenType` is expected.
-/

/-- The token kind discriminator (`tokenizer.TokenType`). -/
inductive TokenType where
  | NAME
  | NUMBER
  | STRING
  | OPERATOR
  | KEYWORD
  | GROUP
  | COMMA
  | COLON
  | QUESTION
  | ELLIPSIS
  | ARROW
  | ASSIGNMENT
  | SEMICOLON
  | DOT
  | SEPARATOR
  | EOF
deriving DecidableEq

/-- The raw value carried by a token: a string for most kinds, a native
int or float for `NUMBER` tokens, and `nullv` (Python `None`) for tokens
that carry no value such as `EOF`. -/
inductive TokVal where
  | str (s : NativeStr)
  | int (n : ℤ)
  | float (q : ℚ)
  | nullv
deriving DecidableEq

/-- A token: kind plus raw value. -/
structure Token where
  type : TokenType
  value : TokVal
deriving DecidableEq

/-- Python `token.value == s` for a string literal `s`: only a string
value can be equal to a string. -/
def TokVal.eqStr : TokVal → NativeStr → NativeBool
  | .str s, t => decide (s = t)
  | _, _ => false

/-- The argument passed to `Parser.eat` as its `type` parameter.  Every
call site but one passes a `TokenType`; `Parser.class_definition` line 174
passes the raw string `"KEYWORD"`. -/
inductive EatType where
  | ty (t : TokenType)
  | str (s : NativeStr)
deriving DecidableEq

/-- Python `self.token.type != type` (negated): a `TokenType` enum member
equals another member iff they are the same member, and never equals a
string. -/
def typeMatches : TokenType → EatType → NativeBool
  | t, .ty t2 => decide (t = t2)
  | _, .str _ => false

/-- `Parser.token` (lines 50-55): the current token, or `SyntaxError`
("Unexpected EOF") past the end of the stream. -/
def tokenAt (toks : List Token) (pos : Nat) : Except PyErr Token :=
  match toks.get? pos with
  | some t => pure t
  | Option.none => throw .syntaxError

/-- `Parser.prev_token` (lines 63-67): the previous token; `SyntaxError`
("Expected previous token") at position zero. -/
def prevToken (toks : List Token) (pos : Nat) : Except PyErr Token :=
  if pos > 0 then
    match toks.get? (pos - 1) with
    | some t => pure t
    | Option.none => throw .syntaxError
  else throw .syntaxError

/-- `Parser.eat` (lines 69-75) with `value=None`: checks only the token
kind, advances, and returns the token's raw value. -/
def eat (toks : List Token) (pos : Nat) (ty : EatType) :
    Except PyErr (TokVal × Nat) := do
  let t ← tokenAt toks pos
  if typeMatches t.type ty then pure (t.value, pos + 1)
  else throw .syntaxError

/-- `Parser.eat` with an expected value: checks kind and raw value. -/
def eatV (toks : List Token) (pos : Nat) (ty : EatType) (v : TokVal) :
    Except PyErr (TokVal × Nat) := do
  let t ← tokenAt toks pos
  if typeMatches t.type ty && decide (t.value = v) then pure (t.value, pos + 1)
  else throw .syntaxError

/-!
## The AST

One constructor per node class built by `parser.py`.  Node classes that
live in modules outside the repository (`AST/base.py`, `AST/statements.py`,
`AST/flow_control.py`, `AST/collection_types.py`) are modelled from the
spec's node list, with fields in the order of the construction calls in
`parser.py`.  `noneNode` stands for the Python `None` that `Parser.atom`
returns when no alternative matches.  `DictionaryConstant` lines are
(key, value) pairs where an unpack entry has no value.
-/

inductive AST where
  | Constant (value : Value)
  | Variable (name : TokVal)
  | Assignment (object : AST) (value : AST)
  | OperatorCall (operator : NativeStr) (arguments : List AST)
  | AndOperation (left : AST) (right : AST)
  | OrOperation (left : AST) (right : AST)
  | NotOperation (expr : AST)
  | ContainsOperation (element : AST) (container : AST)
  | ConditionalExpression (condition : AST) (ifExpr : AST) (elseExpr : AST)
  | MemberAccess (object : AST) (name : TokVal)
  | MemberCall (object : AST) (name : TokVal) (args : List AST) (kwargs : AST)
  | FunctionCall (function : AST) (args : List AST) (kwargs : AST)
  | ItemAccess (object : AST) (arguments : List AST)
  | ConstructorCall (type : AST) (args : List AST)
  | TupleConstant (arguments : List AST)
  | ArrayConstant (arguments : List AST)
  | DictionaryConstant (lines : List (AST × Option AST))
  | Destructuring (names : List TokVal)
  | UnpackOperation (expr : AST)
  | ListComprehension (operation : AST) (iterVars : List TokVal)
      (iterable : AST) (conditions : List AST)
  | FunctionCreate (body : AST) (names : List TokVal)
      (varArgName : Option TokVal) (defaultArgs : List AST)
  | ClassCreate (name : TokVal) (methods : List (TokVal × AST))
      (statics : List (TokVal × AST)) (parent : Option TokVal)
  | StatementList (statements : List AST)
  | ExprStatement (expr : AST)
  | ReturnStatement (stmt : AST)
  | RaiseStatement (stmt : AST)
  | BreakStatement
  | ContinueStatement
  | ConditionalStatement (condition : AST) (body : AST) (elseBody : Option AST)
  | WhileStatement (condition : AST) (body : AST)
  | ForStatement (names : List TokVal) (iterable : AST) (body : AST)
  | noneNode

/-- Whether a parse result is the Python `None` (no node). -/
def AST.isNone : AST → NativeBool
  | .noneNode => true
  | _ => false

/-- Modelled from the spec: the `IAssignable` marker interface of
`AST/base.py`.  Per the spec, the assignable nodes are "variable, member
access, item access, destructuring pattern". -/
def AST.isAssignable : AST → NativeBool
  | .Variable _ => true
  | .MemberAccess _ _ => true
  | .ItemAccess _ _ => true
  | .Destructuring _ => true
  | _ => false

/-- Python attribute access `node.name`, for the node classes that have a
`name` field. -/
def AST.getName : AST → Except PyErr TokVal
  | .Variable n => pure n
  | .MemberAccess _ n => pure n
  | .MemberCall _ n _ _ => pure n
  | .ClassCreate n _ _ _ => pure n
  | _ => throw (.attributeError "name")

/-- Python attribute access `node.arguments`, for the node classes that
have an `arguments` field (used by the arrow-function branch of
`Parser.atom`). -/
def AST.getArguments : AST → Option (List AST)
  | .OperatorCall _ args => some args
  | .ItemAccess _ args => some args
  | .TupleConstant args => some args
  | .ArrayConstant args => some args
  | _ => Option.none

/-- The `definition.object.name` / `definition.value` accesses of
`Parser.class_definition` lines 185-191: the key under which a class
member is recorded, and the stored node.  On a node that is not an
`Assignment` the `.object` access raises `AttributeError`; on an
assignment whose target has no `name` field the `.name` access does. -/
def assignTarget : AST → Except PyErr (TokVal × AST)
  | .Assignment o v => do
      let n ← o.getName
      pure (n, v)
  | _ => throw (.attributeError "object")

/-- Insertion into a Python dict modelled as an association list: replace
the value of an existing key in place, or append a new key at the end. -/
def dictInsert (l : List (TokVal × AST)) (k : TokVal) (v : AST) :
    List (TokVal × AST) :=
  if l.any fun p => decide (p.1 = k) then
    l.map fun p => if p.1 = k then (k, v) else p
  else l ++ [(k, v)]

/-- `Parser.comparation_operators` (line 22). -/
def comparation_operators : List NativeStr := ["==", "!=", "<", "<=", ">", ">="]

/-- Python `self.token.value in Parser.comparation_operators`. -/
def isComparisonOp (v : TokVal) : NativeBool :=
  match v with
  | .str s => comparation_operators.contains s
  | _ => false

/-- `Parser.operator_names` (lines 24-38): source operator symbol to
symbolic method name. -/
def operator_names : List (NativeStr × NativeStr) :=
  [("==", "#equal"), ("!=", "#not_equal"), ("<", "#lesser"),
   ("<=", "#lesser_equal"), (">", "#greater"), (">=", "#greater_equal"),
   ("in", "#contains"), ("+", "#add"), ("-", "#substract"),
   ("*", "#multiply"), ("/", "#divide"), ("%", "#modulo"),
   ("^", "#exponent")]

/-- `Parser.operator_names[operator]`: dict lookup, `KeyError` when the
key is absent. -/
def operatorName (v : TokVal) : Except PyErr NativeStr :=
  match v with
  | .str s =>
    match operator_names.lookup s with
    | some n => pure n
    | Option.none => throw .keyError
  | _ => throw .keyError

/-- The names the arrow-function branch of `Parser.atom` extracts
(lines 397-402): a bare variable gives one name; otherwise the node's
`arguments` must all be variables (if some are not, the local `names` is
never assigned and the later use raises `UnboundLocalError`); a node with
no `arguments` field raises `AttributeError`. -/
def arrowNames : AST → Except PyErr (List TokVal)
  | .Variable n => pure [n]
  | v =>
    match v.getArguments with
    | some args =>
      if args.all fun a => match a with | .Variable _ => true | _ => false then
        pure (args.filterMap fun a => match a with | .Variable n => some n | _ => Option.none)
      else throw .unboundLocalError
    | Option.none => throw (.attributeError "arguments")

/-- The last element of an expression list is a keyword-style argument:
`isinstance(result[-1], Assignment) and isinstance(result[-1].object,
Variable)` (`Parser.expr_list` lines 328-331). -/
def isKwargPair (result : List AST) : NativeBool :=
  match result.getLast? with
  | some (.Assignment (.Variable _) _) => true
  | _ => false

/-- `Parser.name_list` loop (lines 122-127). -/
def name_list_loop : Nat → List Token → Nat → List TokVal →
    Except PyErr (List TokVal × Nat)
  | 0, _, _, _ => throw .fuelExhausted
  | fu+1, toks, pos, names => do
    let t ← tokenAt toks pos
    if t.type = .COMMA then do
      let (_, pos) ← eat toks pos (.ty .COMMA)
      let (n, pos) ← eat toks pos (.ty .NAME)
      name_list_loop fu toks pos (names ++ [n])
    else pure (names, pos)

/-- `Parser.name_list` (lines 122-127). -/
def name_list (fu : Nat) (toks : List Token) (pos : Nat) :
    Except PyErr (List TokVal × Nat) := do
  let (n, pos) ← eat toks pos (.ty .NAME)
  name_list_loop fu toks pos [n]

/-- Result of a parsing routine: a node and the new position. -/
abbrev PResult := Except PyErr (AST × Nat)

/-!
## The recursive-descent parser

Each method of the `Parser` class becomes a function over the fixed token
list and the current position, with an explicit fuel argument for
termination (the `while` loops of the source become `..._loop` helpers).
Two methods the ladder calls do not exist on the class —
`Parser.conditional_expr` calls `self.logic_expr()` and
`Parser.function_definition` falls through to `self.assignment_expr()` —
so those call sites raise `AttributeError`, embedded as
`attributeError "logic_expr"` / `attributeError "assignment_expr"`.
-/

set_option maxHeartbeats 2000000 in
mutual

/-- `Parser.statement_block` (lines 85-91). -/
def statement_block : Nat → List Token → Nat → PResult
  | 0, _, _ => throw .fuelExhausted
  | fu+1, toks, pos => do
    let t ← tokenAt toks pos
    if !(t.value.eqStr "\x7b") then statement fu toks pos
    else do
      let (_, pos) ← eat toks pos (.ty .GROUP)
      let (result, pos) ← statement_list fu toks pos
      let (_, pos) ← eatV toks pos (.ty .GROUP) (.str "\x7d")
      pure (result, pos)
termination_by structural fu => fu

/-- `Parser.statement_list` (lines 93-102). -/
def statement_list : Nat → List Token → Nat → PResult
  | 0, _, _ => throw .fuelExhausted
  | fu+1, toks, pos => do
    let (s, pos) ← statement fu toks pos
    statement_list_loop fu toks pos (if s.isNone then [] else [s])
termination_by structural fu => fu

/-- The `while` loop of `Parser.statement_list` (lines 96-101). -/
def statement_list_loop : Nat → List Token → Nat → List AST → PResult
  | 0, _, _, _ => throw .fuelExhausted
  | fu+1, toks, pos, acc => do
    let t ← tokenAt toks pos
    if !(t.value.eqStr "\x7d") && t.type != TokenType.EOF then do
      let p ← prevToken toks pos
      let pos ← (if !(p.value.eqStr "\x7d") then do
          let (_, pos2) ← eat toks pos (.ty .SEMICOLON)
          pure pos2
        else pure pos)
      let (s, pos) ← statement fu toks pos
      statement_list_loop fu toks pos (if s.isNone then acc else acc ++ [s])
    else pure (.StatementList acc, pos)
termination_by structural fu => fu

/-- `Parser.statement` (lines 104-105). -/
def statement : Nat → List Token → Nat → PResult
  | 0, _, _ => throw .fuelExhausted
  | fu+1, toks, pos => special_statement fu toks pos
termination_by structural fu => fu

/-- `Parser.special_statement` (lines 107-120).  Note that the `return`
and `raise` branches do not consume the keyword before delegating to
`expr_statement`. -/
def special_statement : Nat → List Token → Nat → PResult
  | 0, _, _ => throw .fuelExhausted
  | fu+1, toks, pos => do
    let t ← tokenAt toks pos
    if t.value.eqStr "return" then do
      let (e, pos) ← expr_statement fu toks pos
      pure (.ReturnStatement e, pos)
    else if t.value.eqStr "raise" then do
      let (e, pos) ← expr_statement fu toks pos
      pure (.RaiseStatement e, pos)
    else if t.value.eqStr "break" then do
      let (_, pos) ← eat toks pos (.ty .KEYWORD)
      let (_, pos) ← eat toks pos (.ty .SEMICOLON)
      pure (.BreakStatement, pos)
    else if t.value.eqStr "continue" then do
      let (_, pos) ← eat toks pos (.ty .KEYWORD)
      let (_, pos) ← eat toks pos (.ty .SEMICOLON)
      pure (.ContinueStatement, pos)
    else flow_statement fu toks pos
termination_by structural fu => fu

/-- `Parser.flow_statement` (lines 129-159). -/
def flow_statement : Nat → List Token → Nat → PResult
  | 0, _, _ => throw .fuelExhausted
  | fu+1, toks, pos => do
    let t ← tokenAt toks pos
    if t.type = TokenType.KEYWORD then
      if t.value.eqStr "if" then do
        let (_, pos) ← eat toks pos (.ty .KEYWORD)
        let (_, pos) ← eatV toks pos (.ty .GROUP) (.str "(")
        let (condition, pos) ← expr fu toks pos
        let (_, pos) ← eatV toks pos (.ty .GROUP) (.str ")")
        let (body, pos) ← statement_block fu toks pos
        let t2 ← tokenAt toks pos
        if t2.value.eqStr "else" then do
          let (_, pos) ← eat toks pos (.ty .KEYWORD)
          let (elseBody, pos) ← statement_block fu toks pos
          pure (.ConditionalStatement condition body (some elseBody), pos)
        else pure (.ConditionalStatement condition body Option.none, pos)
      else if t.value.eqStr "while" then do
        let (_, pos) ← eat toks pos (.ty .KEYWORD)
        let (_, pos) ← eatV toks pos (.ty .GROUP) (.str "(")
        let (condition, pos) ← expr fu toks pos
        let (_, pos) ← eatV toks pos (.ty .GROUP) (.str ")")
        let (body, pos) ← statement_block fu toks pos
        pure (.WhileStatement condition body, pos)
      else if t.value.eqStr "for" then do
        let (_, pos) ← eat toks pos (.ty .KEYWORD)
        let (_, pos) ← eatV toks pos (.ty .GROUP) (.str "(")
        let (names, pos) ← name_list fu toks pos
        let (_, pos) ← eatV toks pos (.ty .KEYWORD) (.str "in")
        let (iterable, pos) ← expr fu toks pos
        let (_, pos) ← eatV toks pos (.ty .GROUP) (.str ")")
        let (body, pos) ← statement_block fu toks pos
        pure (.ForStatement names iterable body, pos)
      else expr_statement fu toks pos
    else expr_statement fu toks pos
termination_by structural fu => fu

/-- `Parser.expr_statement` (lines 161-164). -/
def expr_statement : Nat → List Token → Nat → PResult
  | 0, _, _ => throw .fuelExhausted
  | fu+1, toks, pos => do
    let (e, pos) ← expr fu toks pos
    let (_, pos) ← eat toks pos (.ty .SEMICOLON)
    pure (.ExprStatement e, pos)
termination_by structural fu => fu

/-- `Parser.expr` (lines 166-167). -/
def expr : Nat → List Token → Nat → PResult
  | 0, _, _ => throw .fuelExhausted
  | fu+1, toks, pos => class_definition fu toks pos
termination_by structural fu => fu

/-- `Parser.class_definition` (lines 169-193).  In the `extends` branch
the source calls `self.eat("KEYWORD")`, passing the raw *string*
`"KEYWORD"` where every other call site passes a `TokenType` member; a
token kind never equals a string, so that `eat` always raises
`SyntaxError`.  The method also returns without consuming the closing
brace of the class body. -/
def class_definition : Nat → List Token → Nat → PResult
  | 0, _, _ => throw .fuelExhausted
  | fu+1, toks, pos => do
    let t ← tokenAt toks pos
    if t.value.eqStr "class" then do
      let (_, pos) ← eat toks pos (.ty .KEYWORD)
      let (name, pos) ← eat toks pos (.ty .NAME)
      let t2 ← tokenAt toks pos
      let (parentName, pos) ←
        (if t2.value.eqStr "extends" then do
          let (_, pos) ← eat toks pos (.str "KEYWORD")
          let (pn, pos) ← eat toks pos (.ty .NAME)
          pure ((some pn : Option TokVal), pos)
        else pure ((Option.none : Option TokVal), pos))
      let (_, pos) ← eatV toks pos (.ty .GROUP) (.str "\x7b")
      let (methods, statics, pos) ← class_body fu toks pos [] []
      pure (.Assignment (.Variable name) (.ClassCreate name methods statics parentName), pos)
    else function_definition fu toks pos
termination_by structural fu => fu

/-- The member loop of `Parser.class_definition` (lines 181-191). -/
def class_body : Nat → List Token → Nat → List (TokVal × AST) → List (TokVal × AST) →
    Except PyErr (List (TokVal × AST) × List (TokVal × AST) × Nat)
  | 0, _, _, _, _ => throw .fuelExhausted
  | fu+1, toks, pos, methods, statics => do
    let t ← tokenAt toks pos
    if !(t.value.eqStr "\x7d") && t.type != TokenType.EOF then
      if t.value.eqStr "static" then do
        let (_, pos) ← eat toks pos (.ty .KEYWORD)
        let (d, pos) ← function_definition fu toks pos
        let (k, v) ← assignTarget d
        class_body fu toks pos methods (dictInsert statics k v)
      else if t.value.eqStr "function" then do
        let (d, pos) ← function_definition fu toks pos
        let (k, v) ← assignTarget d
        class_body fu toks pos (dictInsert methods k v) statics
      else do
        let (a, pos) ← assignment fu toks pos
        let (k, v) ← assignTarget a
        class_body fu toks pos methods (dictInsert statics k v)
    else pure (methods, statics, pos)
termination_by structural fu => fu

/-- `Parser.function_definition` (lines 195-221).  The fall-through of
the method is `return self.assignment_expr()`, but the `Parser` class
defines no method `assignment_expr` (the next ladder level that exists is
`assignment`), so every non-`function` expression reaching this point
raises `AttributeError`.  In the variadic branch for a leading ellipsis
the source does not consume the `...` token before demanding a `NAME`, so
that branch always raises `SyntaxError`. -/
def function_definition : Nat → List Token → Nat → PResult
  | 0, _, _ => throw .fuelExhausted
  | fu+1, toks, pos => do
    let t ← tokenAt toks pos
    if t.value.eqStr "function" then do
      let (_, pos) ← eat toks pos (.ty .KEYWORD)
      let (name, pos) ← eat toks pos (.ty .NAME)
      let (_, pos) ← eatV toks pos (.ty .GROUP) (.str "(")
      let t2 ← tokenAt toks pos
      let (names, varArgName, defaultArgs, pos) ←
        (if t2.type = TokenType.ELLIPSIS then do
          let (va, pos) ← eat toks pos (.ty .NAME)
          pure (([] : List TokVal), (some va : Option TokVal), ([] : List AST), pos)
        else do
          let (n1, pos) ← eat toks pos (.ty .NAME)
          param_loop fu toks pos [n1] Option.none [])
      let (_, pos) ← eatV toks pos (.ty .GROUP) (.str ")")
      let (body, pos) ← statement_block fu toks pos
      pure (.Assignment (.Variable name)
        (.FunctionCreate body names varArgName defaultArgs.reverse), pos)
    else throw (.attributeError "assignment_expr")
termination_by structural fu => fu

/-- The parameter loop of `Parser.function_definition` (lines 207-217),
accumulating names and default expressions, with the `break` on a
variadic tail. -/
def param_loop : Nat → List Token → Nat → List TokVal → Option TokVal → List AST →
    Except PyErr (List TokVal × Option TokVal × List AST × Nat)
  | 0, _, _, _, _, _ => throw .fuelExhausted
  | fu+1, toks, pos, names, varArgName, defaultArgs => do
    let t ← tokenAt toks pos
    if t.type = TokenType.COMMA then do
      let (_, pos) ← eat toks pos (.ty .COMMA)
      let t2 ← tokenAt toks pos
      if t2.type = TokenType.ELLIPSIS then do
        let (_, pos) ← eat toks pos (.ty .ELLIPSIS)
        let (va, pos) ← eat toks pos (.ty .NAME)
        pure (names, some va, defaultArgs, pos)
      else do
        let (n, pos) ← eat toks pos (.ty .NAME)
        let t3 ← tokenAt toks pos
        if t3.value.eqStr "=" then do
          let (_, pos) ← eat toks pos (.ty .ASSIGNMENT)
          let (d, pos) ← expr fu toks pos
          param_loop fu toks pos (names ++ [n]) varArgName (defaultArgs ++ [d])
        else param_loop fu toks pos (names ++ [n]) varArgName defaultArgs
    else pure (names, varArgName, defaultArgs, pos)
termination_by structural fu => fu

/-- `Parser.assignment` (lines 223-229). -/
def assignment : Nat → List Token → Nat → PResult
  | 0, _, _ => throw .fuelExhausted
  | fu+1, toks, pos => do
    let (var, pos) ← list_comp_expr fu toks pos
    let t ← tokenAt toks pos
    if t.value.eqStr "=" && var.isAssignable then do
      let (_, pos) ← eat toks pos (.ty .ASSIGNMENT)
      let (e, pos) ← assignment fu toks pos
      pure (.Assignment var e, pos)
    else pure (var, pos)
termination_by structural fu => fu

/-- `Parser.list_comp_expr` (lines 231-243).  On a `SEPARATOR` token the
source calls `self.eat(TokenType.KEYWORD)` while the current token is the
separator, so the comprehension branch always raises `SyntaxError` at
that `eat`. -/
def list_comp_expr : Nat → List Token → Nat → PResult
  | 0, _, _ => throw .fuelExhausted
  | fu+1, toks, pos => do
    let (operation, pos) ← conditional_expr fu toks pos
    let t ← tokenAt toks pos
    if t.type = TokenType.SEPARATOR then do
      let (_, pos) ← eat toks pos (.ty .KEYWORD)
      let (iterVars, pos) ← name_list fu toks pos
      let (_, pos) ← eatV toks pos (.ty .KEYWORD) (.str "in")
      let (iterable, pos) ← expr fu toks pos
      let t2 ← tokenAt toks pos
      let (conditions, pos) ←
        (if t2.type = TokenType.COMMA then do
          let ((cs, _), pos) ← expr_list fu toks pos false
          pure (cs, pos)
        else pure (([] : List AST), pos))
      pure (.ListComprehension operation iterVars iterable conditions, pos)
    else pure (operation, pos)
termination_by structural fu => fu

/-- `Parser.conditional_expr` (lines 245-253).  Its first statement is
`condition = self.logic_expr()`, but the `Parser` class defines no method
`logic_expr` (the next ladder level that exists is `or_expr`), so every
call raises `AttributeError` and the rest of the method (the `? :`
ternary) is unreachable. -/
def conditional_expr : Nat → List Token → Nat → PResult
  | 0, _, _ => throw .fuelExhausted
  | _+1, _, _ => throw (.attributeError "logic_expr")

/-- `Parser.or_expr` (lines 255-260). -/
def or_expr : Nat → List Token → Nat → PResult
  | 0, _, _ => throw .fuelExhausted
  | fu+1, toks, pos => do
    let (v, pos) ← and_expr fu toks pos
    or_loop fu toks pos v

/-- The `while` loop of `Parser.or_expr`. -/
def or_loop : Nat → List Token → Nat → AST → PResult
  | 0, _, _, _ => throw .fuelExhausted
  | fu+1, toks, pos, value => do
    let t ← tokenAt toks pos
    if t.value.eqStr "or" then do
      let (_, pos) ← eat toks pos (.ty .OPERATOR)
      let (r, pos) ← and_expr fu toks pos
      or_loop fu toks pos (.OrOperation value r)
    else pure (value, pos)
termination_by structural fu => fu

/-- `Parser.and_expr` (lines 262-267). -/
def and_expr : Nat → List Token → Nat → PResult
  | 0, _, _ => throw .fuelExhausted
  | fu+1, toks, pos => do
    let (v, pos) ← not_expr fu toks pos
    and_loop fu toks pos v

/-- The `while` loop of `Parser.and_expr`. -/
def and_loop : Nat → List Token → Nat → AST → PResult
  | 0, _, _, _ => throw .fuelExhausted
  | fu+1, toks, pos, value => do
    let t ← tokenAt toks pos
    if t.value.eqStr "and" then do
      let (_, pos) ← eat toks pos (.ty .OPERATOR)
      let (r, pos) ← not_expr fu toks pos
      and_loop fu toks pos (.AndOperation value r)
    else pure (value, pos)
termination_by structural fu => fu

/-- `Parser.not_expr` (lines 269-273). -/
def not_expr : Nat → List Token → Nat → PResult
  | 0, _, _ => throw .fuelExhausted
  | fu+1, toks, pos => do
    let t ← tokenAt toks pos
    if t.value.eqStr "not" then do
      let (_, pos) ← eat toks pos (.ty .OPERATOR)
      let (e, pos) ← not_expr fu toks pos
      pure (.NotOperation e, pos)
    else in_expr fu toks pos
termination_by structural fu => fu

/-- `Parser.in_expr` (lines 275-280). -/
def in_expr : Nat → List Token → Nat → PResult
  | 0, _, _ => throw .fuelExhausted
  | fu+1, toks, pos => do
    let (v, pos) ← comparation_expr fu toks pos
    let t ← tokenAt toks pos
    if t.value.eqStr "in" then do
      let (_, pos) ← eat toks pos (.ty .OPERATOR)
      let (c, pos) ← expr fu toks pos
      pure (.ContainsOperation v c, pos)
    else pure (v, pos)

/-- `Parser.comparation_expr` (lines 282-295): the first comparison, then
the chaining loop. -/
def comparation_expr : Nat → List Token → Nat → PResult
  | 0, _, _ => throw .fuelExhausted
  | fu+1, toks, pos => do
    let (value, pos) ← term_expr fu toks pos
    let t ← tokenAt toks pos
    if isComparisonOp t.value then do
      let op := t.value
      let (_, pos) ← eat toks pos (.ty .OPERATOR)
      let (lastOperand, pos) ← term_expr fu toks pos
      let nm ← operatorName op
      comparation_loop fu toks pos (.OperatorCall nm [value, lastOperand]) lastOperand
    else pure (value, pos)

/-- The chaining loop of `Parser.comparation_expr` (lines 289-294,
"Allows a < x < b"): each further comparison is folded with
`AndOperation` against the running result, its left operand being the
previous right operand. -/
def comparation_loop : Nat → List Token → Nat → AST → AST → PResult
  | 0, _, _, _, _ => throw .fuelExhausted
  | fu+1, toks, pos, value, lastOperand => do
    let t ← tokenAt toks pos
    if isComparisonOp t.value then do
      let op := t.value
      let (_, pos) ← eat toks pos (.ty .OPERATOR)
      let (opnd, pos) ← term_expr fu toks pos
      let nm ← operatorName op
      comparation_loop fu toks pos
        (.AndOperation value (.OperatorCall nm [lastOperand, opnd])) opnd
    else pure (value, pos)
termination_by structural fu => fu

/-- `Parser.term_expr` (lines 297-303). -/
def term_expr : Nat → List Token → Nat → PResult
  | 0, _, _ => throw .fuelExhausted
  | fu+1, toks, pos => do
    let (v, pos) ← factor_expr fu toks pos
    term_loop fu toks pos v

/-- The `while` loop of `Parser.term_expr` (`+` and `-`). -/
def term_loop : Nat → List Token → Nat → AST → PResult
  | 0, _, _, _ => throw .fuelExhausted
  | fu+1, toks, pos, value => do
    let t ← tokenAt toks pos
    if t.value.eqStr "+" || t.value.eqStr "-" then do
      let op := t.value
      let (_, pos) ← eat toks pos (.ty .OPERATOR)
      let (r, pos) ← factor_expr fu toks pos
      let nm ← operatorName op
      term_loop fu toks pos (.OperatorCall nm [value, r])
    else pure (value, pos)
termination_by structural fu => fu

/-- `Parser.factor_expr` (lines 305-311). -/
def factor_expr : Nat → List Token → Nat → PResult
  | 0, _, _ => throw .fuelExhausted
  | fu+1, toks, pos => do
    let (v, pos) ← power_expr fu toks pos
    factor_loop fu toks pos v

/-- The `while` loop of `Parser.factor_expr` (`*`, `/` and `%`). -/
def factor_loop : Nat → List Token → Nat → AST → PResult
  | 0, _, _, _ => throw .fuelExhausted
  | fu+1, toks, pos, value => do
    let t ← tokenAt toks pos
    if t.value.eqStr "*" || t.value.eqStr "/" || t.value.eqStr "%" then do
      let op := t.value
      let (_, pos) ← eat toks pos (.ty .OPERATOR)
      let (r, pos) ← power_expr fu toks pos
      let nm ← operatorName op
      factor_loop fu toks pos (.OperatorCall nm [value, r])
    else pure (value, pos)
termination_by structural fu => fu

/-- `Parser.power_expr` (lines 313-318): a loop directly above
`trailer_expr`, folding `^` left-associatively into `#exponent` calls. -/
def power_expr : Nat → List Token → Nat → PResult
  | 0, _, _ => throw .fuelExhausted
  | fu+1, toks, pos => do
    let (v, pos) ← trailer_expr fu toks pos
    power_loop fu toks pos v

/-- The `while` loop of `Parser.power_expr`. -/
def power_loop : Nat → List Token → Nat → AST → PResult
  | 0, _, _, _ => throw .fuelExhausted
  | fu+1, toks, pos, value => do
    let t ← tokenAt toks pos
    if t.value.eqStr "^" then do
      let (_, pos) ← eat toks pos (.ty .OPERATOR)
      let (r, pos) ← trailer_expr fu toks pos
      power_loop fu toks pos (.OperatorCall "#exponent" [value, r])
    else pure (value, pos)
termination_by structural fu => fu

/-- `Parser.expr_list` (lines 320-337).  Returns the positional list and
(in `with_kwargs` mode) the `DictionaryConstant` of keyword pairs.  When
the first expression comes back as `None` the source returns a bare empty
list; in `with_kwargs` mode the caller unpacks that list into two
variables, which raises `ValueError`. -/
def expr_list : Nat → List Token → Nat → NativeBool →
    Except PyErr ((List AST × Option AST) × Nat)
  | 0, _, _, _ => throw .fuelExhausted
  | fu+1, toks, pos, withKwargs => do
    let t0 ← tokenAt toks pos
    let (e, pos) ← expr fu toks pos
    if e.isNone then
      if withKwargs then throw .valueError
      else pure ((([] : List AST), (Option.none : Option AST)), pos)
    else expr_list_loop fu toks pos withKwargs t0.value [e]
termination_by structural fu => fu

/-- The `while` loop of `Parser.expr_list` (lines 327-336).  When a
keyword-style pair is detected the source calls
`kwarg_lines.append(Constant(...), kv_pair.value)` — `list.append` takes
exactly one argument, so that branch raises `TypeError`; consequently
`kwarg_lines` is always empty when the routine returns. -/
def expr_list_loop : Nat → List Token → Nat → NativeBool → TokVal → List AST →
    Except PyErr ((List AST × Option AST) × Nat)
  | 0, _, _, _, _, _ => throw .fuelExhausted
  | fu+1, toks, pos, withKwargs, startSymbol, result => do
    let t ← tokenAt toks pos
    if t.type = TokenType.COMMA then
      if withKwargs && isKwargPair result && !(startSymbol.eqStr "(") then
        throw .typeError
      else do
        let (_, pos) ← eat toks pos (.ty .COMMA)
        let t2 ← tokenAt toks pos
        let (e, pos) ← expr fu toks pos
        expr_list_loop fu toks pos withKwargs t2.value (result ++ [e])
    else
      pure ((result,
        if withKwargs then some (.DictionaryConstant []) else Option.none), pos)
termination_by structural fu => fu

/-- `Parser.trailer_expr` (lines 339-360). -/
def trailer_expr : Nat → List Token → Nat → PResult
  | 0, _, _ => throw .fuelExhausted
  | fu+1, toks, pos => do
    let (value, pos) ← atom fu toks pos
    trailer_loop fu toks pos value

/-- The `while` loop of `Parser.trailer_expr`.  A call and an index
access feed the new node back into the loop; the member-access branch
`return`s the `MemberAccess` node immediately, ending the loop. -/
def trailer_loop : Nat → List Token → Nat → AST → PResult
  | 0, _, _, _ => throw .fuelExhausted
  | fu+1, toks, pos, value => do
    let t ← tokenAt toks pos
    if t.value.eqStr "(" || t.value.eqStr "[" || t.type == TokenType.DOT then
      if t.type = TokenType.DOT then do
        let (_, pos) ← eat toks pos (.ty .DOT)
        let t2 ← tokenAt toks pos
        let memberName := t2.value
        let (_, pos) ← eat toks pos (.ty .NAME)
        pure (.MemberAccess value memberName, pos)
      else do
        let (value, pos) ←
          (if t.value.eqStr "(" then do
            let (_, pos) ← eat toks pos (.ty .GROUP)
            let ((args, kwargs), pos) ← expr_list fu toks pos true
            let (_, pos) ← eatV toks pos (.ty .GROUP) (.str ")")
            let kw := kwargs.getD (.DictionaryConstant [])
            match value with
            | .MemberAccess o n => pure ((AST.MemberCall o n args kw), pos)
            | _ => pure ((AST.FunctionCall value args kw), pos)
          else pure (value, pos))
        let t3 ← tokenAt toks pos
        if t3.value.eqStr "[" then do
          let (_, pos) ← eat toks pos (.ty .GROUP)
          let ((args, _), pos) ← expr_list fu toks pos false
          let (_, pos) ← eatV toks pos (.ty .GROUP) (.str "]")
          trailer_loop fu toks pos (.ItemAccess value args)
        else trailer_loop fu toks pos value
    else pure (value, pos)
termination_by structural fu => fu

/-- `Parser.atom` (lines 362-441).  The `new` branch calls
`self.expr(with_kwargs=True)`, but `Parser.expr` accepts no keyword
argument, so that call raises `TypeError`.  In the dictionary branch,
when the first key is a bare variable not followed by a comma the source
evaluates `self.token.key`, and `Token` objects have no `key` attribute,
raising `AttributeError`.  The fall-through returns Python `None` without
consuming anything. -/
def atom : Nat → List Token → Nat → PResult
  | 0, _, _ => throw .fuelExhausted
  | fu+1, toks, pos => do
    let token ← tokenAt toks pos
    if token.value.eqStr "new" then do
      let (_, pos) ← eat toks pos (.ty .KEYWORD)
      let (_, pos) ← atom fu toks pos
      let (_, _) ← eatV toks pos (.ty .GROUP) (.str "(")
      throw .typeError
    else if token.value.eqStr "null" then do
      let (_, pos) ← eat toks pos (.ty .KEYWORD)
      pure (.ConstructorCall (.Variable (.str "NoneType")) [], pos)
    else if token.type = TokenType.NUMBER then do
      let (_, pos) ← eat toks pos (.ty .NUMBER)
      match token.value with
      | .int n => pure (.Constant (.Int n), pos)
      | .float q => pure (.Constant (.Float q), pos)
      | _ => pure (.Constant (.Float 0), pos)
    else if token.type = TokenType.NAME then do
      let (_, pos) ← eat toks pos (.ty .NAME)
      pure (.Variable token.value, pos)
    else if token.type = TokenType.STRING then do
      let (_, pos) ← eat toks pos (.ty .STRING)
      match token.value with
      | .str s => pure (.Constant (.String s), pos)
      | _ => pure (.Constant (.String ""), pos)
    else if token.type = TokenType.GROUP then
      if token.value.eqStr "(" then do
        let (_, pos) ← eat toks pos (.ty .GROUP)
        let (value, pos) ← expr fu toks pos
        let t2 ← tokenAt toks pos
        let (value, pos) ←
          (if t2.type = TokenType.COMMA then do
            let (_, pos) ← eat toks pos (.ty .COMMA)
            let ((rest, _), pos) ← expr_list fu toks pos false
            pure ((AST.TupleConstant ([value] ++ rest)), pos)
          else pure (value, pos))
        let (_, pos) ← eatV toks pos (.ty .GROUP) (.str ")")
        let t3 ← tokenAt toks pos
        if t3.type = TokenType.ARROW then do
          let names ← arrowNames value
          let (body, pos) ← statement_block fu toks pos
          pure (.FunctionCreate body names Option.none [], pos)
        else pure (value, pos)
      else if token.value.eqStr "[" then do
        let (_, pos) ← eat toks pos (.ty .GROUP)
        let ((elems, _), pos) ← expr_list fu toks pos false
        let (_, pos) ← eatV toks pos (.ty .GROUP) (.str "]")
        pure (.ArrayConstant elems, pos)
      else if token.value.eqStr "\x7b" then do
        let (_, pos) ← eat toks pos (.ty .GROUP)
        let (key, pos) ← expr fu toks pos
        match key with
        | .Variable kn => do
          let t2 ← tokenAt toks pos
          if t2.type = TokenType.COMMA then do
            let (_, pos) ← eat toks pos (.ty .COMMA)
            let (ns, pos) ← name_list fu toks pos
            let (_, pos) ← eatV toks pos (.ty .GROUP) (.str "\x7d")
            pure (.Destructuring ([kn] ++ ns), pos)
          else throw (.attributeError "key")
        | _ => do
          let (_, pos) ← eat toks pos (.ty .COLON)
          let (v, pos) ← expr fu toks pos
          dict_lines_loop fu toks pos [(key, some v)]
      else pure (.noneNode, pos)
    else if token.type = TokenType.ELLIPSIS then do
      let (e, pos) ← expr fu toks pos
      pure (.UnpackOperation e, pos)
    else pure (.noneNode, pos)
termination_by structural fu => fu

/-- The dictionary-lines loop of `Parser.atom` (lines 427-436). -/
def dict_lines_loop : Nat → List Token → Nat → List (AST × Option AST) → PResult
  | 0, _, _, _ => throw .fuelExhausted
  | fu+1, toks, pos, lines => do
    let t ← tokenAt toks pos
    if t.type = TokenType.COMMA then do
      let (_, pos) ← eat toks pos (.ty .COMMA)
      let (k, pos) ← expr fu toks pos
      match k with
      | .UnpackOperation _ => dict_lines_loop fu toks pos (lines ++ [(k, Option.none)])
      | _ => do
        let (_, pos) ← eat toks pos (.ty .COLON)
        let (v, pos) ← expr fu toks pos
        dict_lines_loop fu toks pos (lines ++ [(k, some v)])
    else pure (.DictionaryConstant lines, pos)
termination_by structural fu => fu

end

/-!
## Evaluation of the verified scenarios

`AST/base.py` and `AST/logic.py` are not part of the repository, so the
pieces of evaluation the claims exercise are modelled from the spec
(sections 4.2 and 4.3): operator dispatch through the symbolic-method
protocol, truthiness through `#to_bool`, and the logical-and node.
-/

/-- Modelled from the spec: the class whose method table a value
dispatches through.  `Int` and `Float` values carry the classes built in
`src/AST/numerical.py`; the classes of `Bool` (`AST/logic.py`) and
`String` (`AST/text.py`) are outside the repository and outside the
modelled scope (no claim dispatches an operator on them). -/
def classOf : Value → (String → Option PrimMethod)
  | .Int _ => int_class
  | .Float _ => float_class
  | _ => fun _ => Option.none

/-- Modelled from the spec (section 4.3): operator dispatch.  A symmetric
operator's single symbolic name is looked up on the left operand's class;
a non-symmetric operator tries its `_left` variant on the left operand's
class, then its `_right` variant on the right operand's class with the
operands swapped; exhaustion raises `MethodNotFoundError`. -/
def dispatchOperator (name : String) (l r : Value) : Except PyErr Value :=
  match classOf l name with
  | some (.binary f) => f l r
  | _ =>
    match classOf l (name ++ "_left") with
    | some (.binary f) => f l r
    | _ =>
      match classOf r (name ++ "_right") with
      | some (.binary f) => f r l
      | _ => throw .methodNotFoundError

/-- Modelled from the spec: truthiness conversion through the `#to_bool`
protocol.  Numeric wrappers go through their class's `#to_bool`
(`numerical_to_bool` of `src/AST/numerical.py`); a `Bool` is its own
truth value. -/
def toBool (v : Value) : Except PyErr Bool :=
  match v with
  | .Bool b => pure b
  | .Int _ | .Float _ => do
    let r ← callUnary (classOf v) "#to_bool" v
    match r with
    | .Bool b => pure b
    | _ => throw .typeError
  | _ => throw .methodNotFoundError

/-- Modelled from the spec: tree-walking evaluation of the node kinds the
verified scenarios use — constants, binary operator calls, and the
logical-and node (condition converted through `#to_bool`,
short-circuiting to the left value when it is falsy).  Other node kinds
are outside the modelled scope. -/
def evalAST : Nat → AST → Except PyErr Value
  | 0, _ => throw .fuelExhausted
  | fu+1, a =>
    match a with
    | .Constant v => pure v
    | .OperatorCall name [l, r] => do
      let lv ← evalAST fu l
      let rv ← evalAST fu r
      dispatchOperator name lv rv
    | .AndOperation l r => do
      let lv ← evalAST fu l
      let b ← toBool lv
      if b then evalAST fu r else pure lv
    | _ => throw .methodNotFoundError

/-!
## Helper lemmas
-/

/-- `pure` in the `Except PyErr` monad is `Except.ok`. -/
theorem except_pure_def {α : Type} (x : α) : (pure x : Except PyErr α) = Except.ok x := rfl

/-- `throw` in the `Except PyErr` monad is `Except.error`. -/
theorem except_throw_def {α : Type} (e : PyErr) : (throw e : Except PyErr α) = Except.error e := rfl

/-- The native operations backing the method table. -/
def native_operations : List (PyVal → PyVal → Except PyErr PyVal) :=
  [nativeAdd, nativeSubstract, nativeMultiply, nativeDivide, nativeModulo,
   nativeExponent, nativeEqual, nativeNotEqual, nativeLesser, nativeLesserEqual,
   nativeGreater, nativeGreaterEqual]

/-- None of the native operations can produce an `AssertionError`: their
only raises are `TypeError`, `ZeroDivisionError` and the model's
`nonRationalResult` marker. -/
theorem native_no_assert :
    ∀ op ∈ native_operations, ∀ x y : PyVal, op x y ≠ .error .assertionError := by
  intro op hop x y
  fin_cases hop <;>
    cases x <;> cases y <;>
      simp only [nativeAdd, nativeSubstract, nativeMultiply, nativeDivide, nativeModulo,
        nativeExponent, nativeEqual, nativeNotEqual, nativeLesser, nativeLesserEqual,
        nativeGreater, nativeGreaterEqual, PyVal.isNumeric, PyVal.intLike,
        Bool.and_self, Bool.and_true, Bool.and_false, Bool.true_and, Bool.false_and,
        if_true, if_false] <;>
      (try simp [except_pure_def, except_throw_def]) <;>
      (try (split_ifs <;> simp [except_pure_def, except_throw_def]))

/-- Sequencing a reboxing continuation after a native operation that never
raises `AssertionError` cannot produce an `AssertionError`. -/
theorem bind_rebox_no_assert (fn : PyVal → PyVal → Except PyErr PyVal)
    (hfn : ∀ x y : PyVal, fn x y ≠ .error .assertionError) (x y : PyVal) :
    (fn x y >>= fun r => (pure (rebox r) : Except PyErr Value)) ≠
      .error .assertionError := by
  rcases hr : fn x y with e | r
  · intro h
    have he : e = PyErr.assertionError := Except.error.inj h
    exact hfn x y (by rw [hr, he])
  · intro h
    exact Except.noConfusion h

/-- The adapter produced by `numerical_compatible` raises `AssertionError`
exactly when its argument (`other`) is not numeric-compatible, provided
the wrapped native operation itself never does. -/
theorem numerical_compatible_assert_iff (fn : PyVal → PyVal → Except PyErr PyVal)
    (hfn : ∀ x y : PyVal, fn x y ≠ .error .assertionError) (this other : Value) :
    (numerical_compatible fn this other = .error .assertionError ↔
      other.isNumericCompatible = false) := by
  cases hov : other.isNumericCompatible
  · have hcc : numerical_compatible fn this other = .error .assertionError := by
      unfold numerical_compatible
      rw [hov]
      rfl
    simp [hcc, hov]
  · have hne : numerical_compatible fn this other ≠ .error .assertionError := by
      unfold numerical_compatible
      rw [hov, if_pos rfl]
      cases this <;> cases other <;>
        first
          | exact Bool.noConfusion hov
          | (intro h; exact PyErr.noConfusion (Except.error.inj h))
          | exact bind_rebox_no_assert fn hfn _ _
    simp [hne, hov]

/-- Swapping the arguments of the wrapped native operation is the same as
swapping the operands of the adapter, for numeric operands (the adapter's
assertion looks at `other`, so both sides pass it). -/
theorem numerical_compatible_flip (fn : PyVal → PyVal → Except PyErr PyVal)
    (a b : Value) (ha : a.isNumericCompatible = true) (hb : b.isNumericCompatible = true) :
    numerical_compatible (fun x y => fn y x) a b = numerical_compatible fn b a := by
  cases a <;> cases b <;>
    first
      | exact Bool.noConfusion ha
      | exact Bool.noConfusion hb
      | rfl

/-!
## The claims
-/

/-- Claim C1 — boxing rule for primitive operator adapters.  For numeric
operands, the adapter built by `numerical_compatible` reboxes the native
result by its type: an integer result becomes `Int`, a floating result
becomes `Float`, a boolean result becomes `Bool`.  In particular
`int #add int` yields an `Int`, and `int #equal int` yields a `Bool` and
never an `Int`. -/
theorem adapter_reboxes_native_result_by_type :
    (∀ (fn : PyVal → PyVal → Except PyErr PyVal) (a b : Value) (x y : PyVal),
      valueOf a = .ok x → valueOf b = .ok y → b.isNumericCompatible = true →
        (∀ n : ℤ, fn x y = .ok (.int n) → numerical_compatible fn a b = .ok (.Int n)) ∧
        (∀ q : ℚ, fn x y = .ok (.float q) → numerical_compatible fn a b = .ok (.Float q)) ∧
        (∀ c : NativeBool, fn x y = .ok (.bool c) → numerical_compatible fn a b = .ok (.Bool c))) ∧
    (∀ m n : ℤ, callBinary int_class "#add" (.Int m) (.Int n) = .ok (.Int (m + n))) ∧
    (∀ m n : ℤ,
      callBinary int_class "#equal" (.Int m) (.Int n) = .ok (.Bool (decide (m = n))) ∧
      ∀ k : ℤ, callBinary int_class "#equal" (.Int m) (.Int n) ≠ .ok (.Int k)) := by
  refine ⟨?_, ?_, ?_⟩
  · intro fn a b x y hx hy hb
    have base : numerical_compatible fn a b = (fn x y >>= fun r => pure (rebox r)) := by
      unfold numerical_compatible
      rw [hb, if_pos rfl, hx, hy]
      rfl
    refine ⟨?_, ?_, ?_⟩ <;> intro v hv <;> rw [base, hv] <;> rfl
  · intro m n
    rfl
  · intro m n
    have hbool : callBinary int_class "#equal" (.Int m) (.Int n) =
        .ok (.Bool (decide (m = n))) := by
      have hd : (decide ((m : ℚ) = (n : ℚ))) = (decide (m = n)) :=
        decide_eq_decide.mpr Int.cast_inj
      calc callBinary int_class "#equal" (.Int m) (.Int n)
          = .ok (.Bool (decide ((m : ℚ) = (n : ℚ)))) := rfl
        _ = .ok (.Bool (decide (m = n))) := by rw [hd]
    refine ⟨hbool, fun k h => ?_⟩
    rw [hbool] at h
    exact Value.noConfusion (Except.ok.inj h)

/-- Witness for C1: `Int(2) #add Int(3)` reboxes the native `5` as
`Int(5)`. -/
theorem adapter_reboxes_witness :
    numerical_compatible (fun x y => nativeAdd x y) (.Int 2) (.Int 3) = .ok (.Int 5) := by
  have h := adapter_reboxes_native_result_by_type.1 (fun x y => nativeAdd x y)
    (.Int 2) (.Int 3) (.int 2) (.int 3) rfl rfl rfl
  exact h.1 5 rfl

/-- The non-symmetric operator bases of the class protocol: subtract,
divide, modulo, exponent and the four order comparisons. -/
def nonsymmetric_bases : List String :=
  ["#substract", "#divide", "#modulo", "#exponent",
   "#lesser", "#lesser_equal", "#greater", "#greater_equal"]

/-- Claim C7 — reflected (right-variant) dispatch.  For each
non-symmetric operator the `int` and `float` classes define both the
left and the right variant, and on numeric operands the right variant
with receiver `a` and argument `b` computes exactly the left variant
with receiver `b` and argument `a`. -/
theorem right_variant_computes_reflected_left_variant :
    ∀ base ∈ nonsymmetric_bases, ∀ a b : Value,
      a.isNumericCompatible = true → b.isNumericCompatible = true →
      ((int_class (base ++ "_left")).isSome = true ∧
       (int_class (base ++ "_right")).isSome = true ∧
       (float_class (base ++ "_left")).isSome = true ∧
       (float_class (base ++ "_right")).isSome = true) ∧
      callBinary int_class (base ++ "_right") a b =
        callBinary int_class (base ++ "_left") b a ∧
      callBinary float_class (base ++ "_right") a b =
        callBinary float_class (base ++ "_left") b a := by
  intro base hbase a b ha hb
  fin_cases hbase <;>
    refine ⟨⟨rfl, rfl, rfl, rfl⟩, ?_, ?_⟩ <;>
    exact numerical_compatible_flip _ a b ha hb

/-- Witness for C7: `Int(1) #substract_right Int(2)` equals
`Int(2) #substract_left Int(1)` (both are `2 - 1`). -/
theorem right_variant_witness :
    callBinary int_class "#substract_right" (.Int 1) (.Int 2) =
      callBinary int_class "#substract_left" (.Int 2) (.Int 1) := by
  have h := right_variant_computes_reflected_left_variant "#substract"
    (by simp [nonsymmetric_bases]) (.Int 1) (.Int 2) rfl rfl
  exact h.2.1

/-- Claim C8 — numeric truthiness.  The `#to_bool` method on the `int`
and `float` classes is `numerical_to_bool`, and it returns `Bool(true)`
exactly when the wrapped value is nonzero and `Bool(false)` exactly when
it is zero. -/
theorem numeric_to_bool_iff_nonzero :
    int_class "#to_bool" = some (.unary numerical_to_bool) ∧
    float_class "#to_bool" = some (.unary numerical_to_bool) ∧
    (∀ n : ℤ,
      (callUnary int_class "#to_bool" (.Int n) = .ok (.Bool true) ↔ n ≠ 0) ∧
      (callUnary int_class "#to_bool" (.Int n) = .ok (.Bool false) ↔ n = 0)) ∧
    (∀ q : ℚ,
      (callUnary float_class "#to_bool" (.Float q) = .ok (.Bool true) ↔ q ≠ 0) ∧
      (callUnary float_class "#to_bool" (.Float q) = .ok (.Bool false) ↔ q = 0)) := by
  refine ⟨rfl, rfl, ?_, ?_⟩
  · intro n
    have e1 : callUnary int_class "#to_bool" (.Int n) = .ok (.Bool (decide (n ≠ 0))) := rfl
    rw [e1]
    constructor <;> simp
  · intro q
    have e1 : callUnary float_class "#to_bool" (.Float q) = .ok (.Bool (decide (q ≠ 0))) := rfl
    rw [e1]
    constructor <;> simp

/-- Counterexample to C9 as stated: an `Int` argument with a `String`
*receiver* passes the assertion (the adapter asserts only `other`), and
the call fails later with `TypeError` from the native operation, not with
`AssertionError`. -/
theorem adapter_guard_counterexample :
    callBinary int_class "#add" (.String "s") (.Int 1) = .error .typeError ∧
    callBinary int_class "#add" (.String "s") (.Int 1) ≠ .error .assertionError := by
  refine ⟨rfl, ?_⟩
  intro h
  have e1 : callBinary int_class "#add" (.String "s") (.Int 1) = .error .typeError := rfl
  rw [e1] at h
  exact PyErr.noConfusion (Except.error.inj h)

/-- Claim C9 as amended — the adapter's assertion checks only the
argument: for every adapter in the method table, the call raises
`AssertionError` exactly when the *argument* (`other`) is outside
`Int`/`Float`/`Bool`; the receiver is not checked by the assertion, and
when both operands are numeric the assertion branch is unreachable. -/
theorem adapter_asserts_exactly_argument_numeric :
    ∀ (name : String) (fn : PyVal → PyVal → Except PyErr PyVal),
      (name, fn) ∈ numerical_methods → ∀ this other : Value,
      callBinary int_class name this other = numerical_compatible fn this other ∧
      (numerical_compatible fn this other = .error .assertionError ↔
        other.isNumericCompatible = false) := by
  intro name fn hmem this other
  fin_cases hmem <;>
    refine ⟨rfl, numerical_compatible_assert_iff _ ?_ this other⟩ <;> intro x y <;>
    first
      | exact native_no_assert nativeAdd (by simp [native_operations]) x y
      | exact native_no_assert nativeSubstract (by simp [native_operations]) x y
      | exact native_no_assert nativeSubstract (by simp [native_operations]) y x
      | exact native_no_assert nativeMultiply (by simp [native_operations]) x y
      | exact native_no_assert nativeDivide (by simp [native_operations]) x y
      | exact native_no_assert nativeDivide (by simp [native_operations]) y x
      | exact native_no_assert nativeModulo (by simp [native_operations]) x y
      | exact native_no_assert nativeModulo (by simp [native_operations]) y x
      | exact native_no_assert nativeExponent (by simp [native_operations]) x y
      | exact native_no_assert nativeExponent (by simp [native_operations]) y x
      | exact native_no_assert nativeEqual (by simp [native_operations]) x y
      | exact native_no_assert nativeNotEqual (by simp [native_operations]) x y
      | exact native_no_assert nativeLesser (by simp [native_operations]) x y
      | exact native_no_assert nativeLesser (by simp [native_operations]) y x
      | exact native_no_assert nativeLesserEqual (by simp [native_operations]) x y
      | exact native_no_assert nativeLesserEqual (by simp [native_operations]) y x
      | exact native_no_assert nativeGreater (by simp [native_operations]) x y
      | exact native_no_assert nativeGreater (by simp [native_operations]) y x
      | exact native_no_assert nativeGreaterEqual (by simp [native_operations]) x y
      | exact native_no_assert nativeGreaterEqual (by simp [native_operations]) y x

/-- Witness for the amended C9: a `String` argument makes the `#add`
adapter fail its assertion. -/
theorem adapter_asserts_witness :
    callBinary int_class "#add" (.Int 1) (.String "x") = .error .assertionError := by
  have h := adapter_asserts_exactly_argument_numeric "#add" (fun x y => nativeAdd x y)
    (List.Mem.head _) (.Int 1) (.String "x")
  rw [h.1]
  exact h.2.mpr rfl

/-- Claim C10 — integer division always yields a `Float`.  On two `Int`
operands `#divide_left` and `#divide_right` never return an `Int`; when
the divisor is nonzero they return the `Float` of the true quotient, even
when it is integral: `Int(4) / Int(2)` is `Float(2.0)`. -/
theorem int_division_always_float :
    (∀ a b k : ℤ, callBinary int_class "#divide_left" (.Int a) (.Int b) ≠ .ok (.Int k)) ∧
    (∀ a b k : ℤ, callBinary int_class "#divide_right" (.Int a) (.Int b) ≠ .ok (.Int k)) ∧
    (∀ a b : ℤ, b ≠ 0 →
      callBinary int_class "#divide_left" (.Int a) (.Int b) =
        .ok (.Float ((a : ℚ) / (b : ℚ)))) ∧
    (∀ a b : ℤ, a ≠ 0 →
      callBinary int_class "#divide_right" (.Int a) (.Int b) =
        .ok (.Float ((b : ℚ) / (a : ℚ)))) ∧
    callBinary int_class "#divide_left" (.Int 4) (.Int 2) = .ok (.Float 2) := by
  have hnd : ∀ x y : ℤ, (y : ℚ) ≠ 0 →
      nativeDivide (.int x) (.int y) = .ok (.float ((x : ℚ) / (y : ℚ))) := by
    intro x y hy
    show (if (y : ℚ) = 0 then (throw PyErr.zeroDivisionError : Except PyErr PyVal)
        else pure (.float ((x : ℚ) / (y : ℚ)))) = .ok (.float ((x : ℚ) / (y : ℚ)))
    rw [if_neg hy]
    rfl
  have hdz : ∀ x y : ℤ, (y : ℚ) = 0 →
      nativeDivide (.int x) (.int y) = .error .zeroDivisionError := by
    intro x y hy
    show (if (y : ℚ) = 0 then (throw PyErr.zeroDivisionError : Except PyErr PyVal)
        else pure (.float ((x : ℚ) / (y : ℚ)))) = .error .zeroDivisionError
    rw [if_pos hy]
    rfl
  have bl : ∀ a b : ℤ, (b : ℚ) ≠ 0 →
      callBinary int_class "#divide_left" (.Int a) (.Int b) =
        .ok (.Float ((a : ℚ) / (b : ℚ))) := by
    intro a b hb
    show (nativeDivide (.int a) (.int b) >>= fun r =>
      (pure (rebox r) : Except PyErr Value)) = _
    rw [hnd a b hb]
    rfl
  have br : ∀ a b : ℤ, (a : ℚ) ≠ 0 →
      callBinary int_class "#divide_right" (.Int a) (.Int b) =
        .ok (.Float ((b : ℚ) / (a : ℚ))) := by
    intro a b ha
    show (nativeDivide (.int b) (.int a) >>= fun r =>
      (pure (rebox r) : Except PyErr Value)) = _
    rw [hnd b a ha]
    rfl
  have blz : ∀ a b : ℤ, (b : ℚ) = 0 →
      callBinary int_class "#divide_left" (.Int a) (.Int b) =
        .error .zeroDivisionError := by
    intro a b hb
    show (nativeDivide (.int a) (.int b) >>= fun r =>
      (pure (rebox r) : Except PyErr Value)) = _
    rw [hdz a b hb]
    rfl
  have brz : ∀ a b : ℤ, (a : ℚ) = 0 →
      callBinary int_class "#divide_right" (.Int a) (.Int b) =
        .error .zeroDivisionError := by
    intro a b ha
    show (nativeDivide (.int b) (.int a) >>= fun r =>
      (pure (rebox r) : Except PyErr Value)) = _
    rw [hdz b a ha]
    rfl
  refine ⟨?_, ?_, ?_, ?_, ?_⟩
  · intro a b k h
    by_cases hb : ((b : ℚ) = 0)
    · rw [blz a b hb] at h
      exact Except.noConfusion h
    · rw [bl a b hb] at h
      exact Value.noConfusion (Except.ok.inj h)
  · intro a b k h
    by_cases ha : ((a : ℚ) = 0)
    · rw [brz a b ha] at h
      exact Except.noConfusion h
    · rw [br a b ha] at h
      exact Value.noConfusion (Except.ok.inj h)
  · intro a b hb
    exact bl a b (by exact_mod_cast hb)
  · intro a b ha
    exact br a b (by exact_mod_cast ha)
  · have h := bl 4 2 (by norm_num)
    rw [h]
    norm_num

/-- Witness for C10: `Int(4) / Int(2)` is the float `4/2`. -/
theorem int_division_witness :
    callBinary int_class "#divide_left" (.Int 4) (.Int 2) =
      .ok (.Float ((4 : ℚ) / (2 : ℚ))) :=
  int_division_always_float.2.2.1 4 2 (by norm_num)

/-- Claim C2 — comparison chaining.  For every pair of comparison
operators and integer literals, `a OP1 b OP2 c` parses as
`(a OP1 b) and (b OP2 c)`, reusing the middle operand; and `1 < 2 < 0`
evaluates to `false`. -/
theorem comparison_chaining_folds_with_and :
    (∀ (a b c : ℤ) (o1 o2 : NativeStr),
      o1 ∈ comparation_operators → o2 ∈ comparation_operators →
      comparation_expr 32 [⟨.NUMBER, .int a⟩, ⟨.OPERATOR, .str o1⟩, ⟨.NUMBER, .int b⟩,
          ⟨.OPERATOR, .str o2⟩, ⟨.NUMBER, .int c⟩, ⟨.EOF, .nullv⟩] 0 =
        .ok (.AndOperation
          (.OperatorCall ((operator_names.lookup o1).getD "")
            [.Constant (.Int a), .Constant (.Int b)])
          (.OperatorCall ((operator_names.lookup o2).getD "")
            [.Constant (.Int b), .Constant (.Int c)]), 5)) ∧
    (do
      let (ast, _) ← comparation_expr 32 [⟨.NUMBER, .int 1⟩, ⟨.OPERATOR, .str "<"⟩,
        ⟨.NUMBER, .int 2⟩, ⟨.OPERATOR, .str "<"⟩, ⟨.NUMBER, .int 0⟩, ⟨.EOF, .nullv⟩] 0
      evalAST 8 ast) = .ok (.Bool false) := by
  constructor
  · intro a b c o1 o2 h1 h2
    fin_cases h1 <;> fin_cases h2 <;> rfl
  · rfl

/-- Witness for C2: `1 < 2 < 0` parses as `(1<2) and (2<0)`. -/
theorem comparison_chaining_witness :
    comparation_expr 32 [⟨.NUMBER, .int 1⟩, ⟨.OPERATOR, .str "<"⟩, ⟨.NUMBER, .int 2⟩,
        ⟨.OPERATOR, .str "<"⟩, ⟨.NUMBER, .int 0⟩, ⟨.EOF, .nullv⟩] 0 =
      .ok (.AndOperation
        (.OperatorCall "#lesser" [.Constant (.Int 1), .Constant (.Int 2)])
        (.OperatorCall "#lesser" [.Constant (.Int 2), .Constant (.Int 0)]), 5) :=
  comparison_chaining_folds_with_and.1 1 2 0 "<" "<" (by decide) (by decide)

/-- Claim C3 — the power operator is parsed in a loop directly above
trailers and is left-associative: `a ^ b ^ c` parses as `(a ^ b) ^ c`,
and `2 ^ 3 ^ 2` evaluates to `64`, not `512`. -/
theorem power_operator_left_associative :
    (∀ a b c : ℤ,
      power_expr 32 [⟨.NUMBER, .int a⟩, ⟨.OPERATOR, .str "^"⟩, ⟨.NUMBER, .int b⟩,
          ⟨.OPERATOR, .str "^"⟩, ⟨.NUMBER, .int c⟩, ⟨.EOF, .nullv⟩] 0 =
        .ok (.OperatorCall "#exponent"
          [.OperatorCall "#exponent" [.Constant (.Int a), .Constant (.Int b)],
           .Constant (.Int c)], 5)) ∧
    ((do
      let (ast, _) ← power_expr 32 [⟨.NUMBER, .int 2⟩, ⟨.OPERATOR, .str "^"⟩,
        ⟨.NUMBER, .int 3⟩, ⟨.OPERATOR, .str "^"⟩, ⟨.NUMBER, .int 2⟩, ⟨.EOF, .nullv⟩] 0
      evalAST 8 ast) = .ok (.Int 64)) ∧
    ((do
      let (ast, _) ← power_expr 32 [⟨.NUMBER, .int 2⟩, ⟨.OPERATOR, .str "^"⟩,
        ⟨.NUMBER, .int 3⟩, ⟨.OPERATOR, .str "^"⟩, ⟨.NUMBER, .int 2⟩, ⟨.EOF, .nullv⟩] 0
      evalAST 8 ast) ≠ .ok (.Int 512)) := by
  refine ⟨fun a b c => rfl, rfl, ?_⟩
  intro h
  have e1 : (do
      let (ast, _) ← power_expr 32 [⟨.NUMBER, .int 2⟩, ⟨.OPERATOR, .str "^"⟩,
        ⟨.NUMBER, .int 3⟩, ⟨.OPERATOR, .str "^"⟩, ⟨.NUMBER, .int 2⟩, ⟨.EOF, .nullv⟩] 0
      evalAST 8 ast) = .ok (.Int 64) := rfl
  rw [e1] at h
  exact absurd (Value.Int.inj (Except.ok.inj h)) (by decide)

/-- Counterexample to C4 as stated: `a.b.c` does not parse as a
left-to-right chain — the trailer loop returns at the first member
access, consuming only `a.b` (three tokens) and leaving `.c`
unconsumed. -/
theorem member_access_chain_counterexample :
    trailer_expr 32 [⟨.NAME, .str "a"⟩, ⟨.DOT, .str "."⟩, ⟨.NAME, .str "b"⟩,
        ⟨.DOT, .str "."⟩, ⟨.NAME, .str "c"⟩, ⟨.EOF, .nullv⟩] 0 =
      .ok (.MemberAccess (.Variable (.str "a")) (.str "b"), 3) ∧
    trailer_expr 32 [⟨.NAME, .str "a"⟩, ⟨.DOT, .str "."⟩, ⟨.NAME, .str "b"⟩,
        ⟨.DOT, .str "."⟩, ⟨.NAME, .str "c"⟩, ⟨.EOF, .nullv⟩] 0 ≠
      .ok (.MemberAccess (.MemberAccess (.Variable (.str "a")) (.str "b")) (.str "c"), 5) := by
  refine ⟨rfl, ?_⟩
  intro h
  have e1 : trailer_expr 32 [⟨.NAME, .str "a"⟩, ⟨.DOT, .str "."⟩, ⟨.NAME, .str "b"⟩,
      ⟨.DOT, .str "."⟩, ⟨.NAME, .str "c"⟩, ⟨.EOF, .nullv⟩] 0 =
      .ok (.MemberAccess (.Variable (.str "a")) (.str "b"), 3) := rfl
  rw [e1] at h
  exact absurd (congrArg Prod.snd (Except.ok.inj h)) (by decide)

/-- Claim C4 as amended — a member-access trailer returns immediately:
for every member name and every continuation of the token stream, the
trailer loop returns the single `MemberAccess` node after consuming
exactly `atom`, `.`, `name`, so no further trailers are applied. -/
theorem member_access_returns_immediately :
    ∀ (m : TokVal) (rest : List Token),
      trailer_expr 32 ([⟨.NAME, .str "a"⟩, ⟨.DOT, .str "."⟩, ⟨.NAME, m⟩] ++ rest) 0 =
        .ok (.MemberAccess (.Variable (.str "a")) m, 3) :=
  fun _ _ => rfl

/-- Claim C5 (code bug) — on the token stream of the statement `1;` the
parser raises `AttributeError` (`Parser.function_definition` falls
through to the undefined method `assignment_expr`), which is neither a
`SyntaxError` nor an AST; `Parser.conditional_expr` likewise calls the
undefined `logic_expr`. -/
theorem statement_parse_raises_attribute_error :
    statement_list 32 [⟨.NUMBER, .int 1⟩, ⟨.SEMICOLON, .str ";"⟩, ⟨.EOF, .nullv⟩] 0 =
      .error (.attributeError "assignment_expr") ∧
    expr 32 [⟨.NUMBER, .int 1⟩, ⟨.SEMICOLON, .str ";"⟩, ⟨.EOF, .nullv⟩] 0 =
      .error (.attributeError "assignment_expr") ∧
    conditional_expr 32 [⟨.NUMBER, .int 1⟩, ⟨.SEMICOLON, .str ";"⟩, ⟨.EOF, .nullv⟩] 0 =
      .error (.attributeError "logic_expr") :=
  ⟨rfl, rfl, rfl⟩

/-- Claim C6 (code bug) — parsing `class A extends B { }` raises
`SyntaxError`: the `extends` branch calls `eat` with the raw string
`"KEYWORD"` instead of a `TokenType`, and a token kind never matches a
string. -/
theorem class_extends_raises_syntax_error :
    class_definition 32 [⟨.KEYWORD, .str "class"⟩, ⟨.NAME, .str "A"⟩,
        ⟨.KEYWORD, .str "extends"⟩, ⟨.NAME, .str "B"⟩, ⟨.GROUP, .str "\x7b"⟩,
        ⟨.GROUP, .str "\x7d"⟩, ⟨.EOF, .nullv⟩] 0 = .error .syntaxError ∧
    eat [⟨.KEYWORD, .str "extends"⟩] 0 (.str "KEYWORD") = .error .syntaxError ∧
    (∀ t : TokenType, typeMatches t (.str "KEYWORD") = false) := by
  refine ⟨rfl, rfl, ?_⟩
  intro t
  cases t <;> rfl

end FCAD
